import Mathlib

/-!
Verification development for the Gazebo ROS force/torque sensor plugin
(`gazebo_plugins/src/gazebo_ros_ft_sensor.cpp`, class `GazeboRosFT`).

The plugin is embedded shallowly:
* simulation time (`common::Time`) is a pair of integers `sec`/`nsec`, with
  `Time.double` giving the rational value that `common::Time::Double()` returns;
* `GazeboRosFT::UpdateChild` becomes a pure state transformer `UpdateChild`
  over `FTState`; the transport effect of `pub_.publish` is recorded in a
  `published` trace field;
* `GazeboRosFT::FTConnect` / `GazeboRosFT::FTDisconnect` become transformers
  of the `ft_connect_count_` field;
* `GazeboRosFT::Load` becomes a straight-line function over the SDF
  configuration, recording which wiring steps were performed and whether a
  fatal early return was taken;
* the destructor becomes a composition of teardown steps over a
  `RuntimeState`; dereferencing a node handle that was never acquired (or was
  already freed) yields `none`, the model's marker for an invalid memory
  access;
* the plain-integer read/increment/write of `ft_connect_count_` is modelled
  at micro-step granularity to analyse interleavings of the delivery-thread
  callbacks.
-/

namespace GazeboRosFT

/-- Simulation time, as in `gazebo::common::Time`: a seconds part and a
nanoseconds part. -/
structure Time where
  sec : Int
  nsec : Int
  deriving DecidableEq

/-- Componentwise difference of two times, as in `common::Time::operator-`. -/
def Time.sub (a b : Time) : Time :=
  ⟨a.sec - b.sec, a.nsec - b.nsec⟩

/-- The numeric value of a time, as returned by `common::Time::Double()`:
`sec + nsec * 1e-9`, represented exactly as a rational. -/
def Time.double (t : Time) : ℚ :=
  (t.sec : ℚ) + (t.nsec : ℚ) / 1000000000

/-- A 3-vector, as in `gazebo::math::Vector3`. -/
structure Vector3 where
  x : ℚ
  y : ℚ
  z : ℚ
  deriving DecidableEq

/-- A joint wrench, as in `gazebo::physics::JointWrench`: force/torque pairs
reported at each of the two connected bodies. -/
structure JointWrench where
  body1Force : Vector3
  body1Torque : Vector3
  body2Force : Vector3
  body2Torque : Vector3
  deriving DecidableEq

/-- The outgoing `geometry_msgs::WrenchStamped` message: header frame id and
stamp, plus force and torque vectors. -/
structure WrenchMsg where
  frame_id : String
  stamp_sec : Int
  stamp_nsec : Int
  force : Vector3
  torque : Vector3
  deriving DecidableEq

/-- The mutable state of a `GazeboRosFT` instance that `UpdateChild`,
`FTConnect` and `FTDisconnect` touch.  `published` records the sequence of
messages handed to `pub_.publish` (the transport effect). -/
structure FTState where
  ft_connect_count_ : Int
  update_rate_ : ℚ
  last_time_ : Time
  frame_name_ : String
  wrench_msg_ : WrenchMsg
  published : List WrenchMsg
  deriving DecidableEq

/-- Subscribe / unsubscribe events delivered by the callback queue thread. -/
inductive SubEvent
  | connect
  | disconnect
  deriving DecidableEq

/-- Body of `GazeboRosFT::FTConnect`: `this->ft_connect_count_++`. -/
def FTConnect (s : FTState) : FTState :=
  { s with ft_connect_count_ := s.ft_connect_count_ + 1 }

/-- Body of `GazeboRosFT::FTDisconnect`: `this->ft_connect_count_--`. -/
def FTDisconnect (s : FTState) : FTState :=
  { s with ft_connect_count_ := s.ft_connect_count_ - 1 }

/-- Effect of one subscribe/unsubscribe event on the counter value alone
(the arithmetic performed by `FTConnect` / `FTDisconnect`). -/
def applySubEvent (c : Int) : SubEvent → Int
  | SubEvent.connect => c + 1
  | SubEvent.disconnect => c - 1

/-- Run a sequence of subscribe/unsubscribe callbacks against the plugin
state, dispatching each event to `FTConnect` or `FTDisconnect`. -/
def runSubEvents (s : FTState) (es : List SubEvent) : FTState :=
  es.foldl
    (fun st e =>
      match e with
      | SubEvent.connect => FTConnect st
      | SubEvent.disconnect => FTDisconnect st)
    s

/-- Number of `connect` events in a list. -/
def connectCount : List SubEvent → Nat
  | [] => 0
  | SubEvent.connect :: es => connectCount es + 1
  | SubEvent.disconnect :: es => connectCount es

/-- Number of `disconnect` events in a list. -/
def disconnectCount : List SubEvent → Nat
  | [] => 0
  | SubEvent.connect :: es => disconnectCount es
  | SubEvent.disconnect :: es => disconnectCount es + 1

/-- The rate-control test of `UpdateChild`, verbatim from the source:
`this->update_rate_ > 0 && (cur_time-this->last_time_).Double() < (1.0/this->update_rate_)`.
When it is `true` the method returns immediately. -/
def rateGateDenies (s : FTState) (cur_time : Time) : Bool :=
  decide (0 < s.update_rate_) &&
    decide ((Time.sub cur_time s.last_time_).double < 1 / s.update_rate_)

/-- The message assembled inside `UpdateChild` while holding `lock_`:
frame id from `frame_name_`, stamp from the current simulation time, and the
force/torque copied componentwise from `wrench.body2Force` /
`wrench.body2Torque`. -/
def sampledMsg (s : FTState) (cur_time : Time) (wrench : JointWrench) : WrenchMsg :=
  { frame_id := s.frame_name_
    stamp_sec := cur_time.sec
    stamp_nsec := cur_time.nsec
    force := wrench.body2Force
    torque := wrench.body2Torque }

/-- Body of `GazeboRosFT::UpdateChild`, one simulation tick: the rate gate,
the subscriber-count gate, then the read of the joint wrench, the overwrite of
`wrench_msg_`, the publish, and finally `last_time_ = cur_time`.  The current
simulation time and the joint wrench read by `GetForceTorque(0)` are the
external inputs of the tick. -/
def UpdateChild (s : FTState) (cur_time : Time) (wrench : JointWrench) : FTState :=
  if rateGateDenies s cur_time then s
  else if s.ft_connect_count_ = 0 then s
  else
    let msg := sampledMsg s cur_time wrench
    { s with
        wrench_msg_ := msg
        published := s.published ++ [msg]
        last_time_ := cur_time }

/-- Run `UpdateChild` over a sequence of ticks, each tick supplying the
simulation time and the wrench the physics engine reports there. -/
def runTicks (s : FTState) (ticks : List (Time × JointWrench)) : FTState :=
  ticks.foldl (fun st tw => UpdateChild st tw.1 tw.2) s

/-- RateLimiter contract, stated in the specification's own words (§4.1), for
comparison with the gate embedded from the source: if the configured frequency
is ≤ 0 the sample is always allowed, otherwise it is allowed iff
`now - lastSampleTimestamp ≥ 1 / configuredFrequencyHz`. -/
def shouldSample (now : ℚ) (configuredFrequencyHz : ℚ) (lastSampleTimestamp : ℚ) : Bool :=
  if configuredFrequencyHz ≤ 0 then true
  else decide (1 / configuredFrequencyHz ≤ now - lastSampleTimestamp)

/-- The fatal early-return causes in `GazeboRosFT::Load`, in source order. -/
inductive LoadError
  | missingJointName
  | jointNotFound
  | missingTopicName
  | rosNotReady
  deriving DecidableEq

/-- What `Load` reads from a joint resolved by `model->GetJoint`: the names of
the parent and child links it connects. -/
structure JointInfo where
  parentLinkName : String
  childLinkName : String
  deriving DecidableEq

/-- The SDF configuration surface `Load` consumes: each element either present
with a value or absent. -/
structure SdfConfig where
  robotNamespace : Option String
  jointName : Option String
  topicName : Option String
  updateRate : Option ℚ
  deriving DecidableEq

/-- The fields `Load` assigns, plus flags recording which wiring steps ran:
allocation of the `ros::NodeHandle`, the `advertise` call, the start of the
callback-queue thread, and the `ConnectWorldUpdateBegin` registration.
`loadError` records a fatal early return. -/
structure LoadState where
  robot_namespace_ : String
  joint_name_ : Option String
  topic_name_ : Option String
  update_rate_ : Option ℚ
  frame_name_ : Option String
  loadError : Option LoadError
  rosnodeAllocated : Bool
  publisherAdvertised : Bool
  queueThreadStarted : Bool
  updateConnectionRegistered : Bool
  deriving DecidableEq

/-- The `tf::resolve` call applied to the frame name: an empty tf namespace
leaves the frame unchanged, otherwise the namespace is prepended. -/
def tfResolve (tfParam : Option String) (frame : String) : String :=
  match tfParam with
  | none => frame
  | some p => if p = "" then frame else p ++ "/" ++ frame

/-- Body of `GazeboRosFT::Load`, with its exact control flow: namespace
default, the four validated prerequisites in source order (`jointName`
present, joint resolvable via `getJoint`, `topicName` present, ROS
initialized), each failure logging fatally and returning early; only after
all validations pass are the node handle allocated, the tf namespace
resolved into the frame name, the publisher advertised, the queue thread
started, and the world-update callback registered. -/
def Load (getJoint : String → Option JointInfo) (rosReady : Bool)
    (tfParam : Option String) (cfg : SdfConfig) : LoadState :=
  let ns : String :=
    match cfg.robotNamespace with
    | some r => r ++ "/"
    | none => ""
  let base : LoadState :=
    { robot_namespace_ := ns
      joint_name_ := none
      topic_name_ := none
      update_rate_ := none
      frame_name_ := none
      loadError := none
      rosnodeAllocated := false
      publisherAdvertised := false
      queueThreadStarted := false
      updateConnectionRegistered := false }
  match cfg.jointName with
  | none => { base with loadError := some LoadError.missingJointName }
  | some jn =>
    let base := { base with joint_name_ := some jn }
    match getJoint jn with
    | none => { base with loadError := some LoadError.jointNotFound }
    | some joint =>
      let base := { base with frame_name_ := some joint.childLinkName }
      match cfg.topicName with
      | none => { base with loadError := some LoadError.missingTopicName }
      | some tn =>
        let base := { base with topic_name_ := some tn }
        let rate : ℚ :=
          match cfg.updateRate with
          | none => 0
          | some r => r
        let base := { base with update_rate_ := some rate }
        if rosReady then
          { base with
              rosnodeAllocated := true
              frame_name_ := some (tfResolve tfParam joint.childLinkName)
              publisherAdvertised := true
              queueThreadStarted := true
              updateConnectionRegistered := true }
        else { base with loadError := some LoadError.rosNotReady }

/-- The teardown actions appearing in `GazeboRosFT::~GazeboRosFT`, one per
statement of the destructor body. -/
inductive TeardownStep
  | disconnectWorldUpdate
  | queueClear
  | queueDisable
  | nodeShutdown
  | threadJoin
  | nodeDelete
  deriving DecidableEq

/-- Runtime resources of a plugin instance as the destructor sees them.
`nodeAllocated` is whether `rosnode_` points to a live `ros::NodeHandle`
(acquired by a successful `Load`); `nodeOk` is what `rosnode_->ok()` returns;
`trace` records the teardown actions performed, in order. -/
structure RuntimeState where
  updateConnectionRegistered : Bool
  queueContents : List Nat
  queueEnabled : Bool
  nodeAllocated : Bool
  nodeOk : Bool
  threadJoined : Bool
  trace : List TeardownStep
  deriving DecidableEq

/-- The `event::Events::DisconnectWorldUpdateBegin(update_connection_)` call:
deregisters the per-tick callback. -/
def disconnectWorldUpdateBegin (s : RuntimeState) : RuntimeState :=
  { s with
      updateConnectionRegistered := false
      trace := s.trace ++ [TeardownStep.disconnectWorldUpdate] }

/-- The `queue_.clear()` call: drops all pending callbacks. -/
def queueClearStep (s : RuntimeState) : RuntimeState :=
  { s with
      queueContents := []
      trace := s.trace ++ [TeardownStep.queueClear] }

/-- The `queue_.disable()` call: the queue accepts and delivers no further
work, so the queue thread's next poll finds nothing. -/
def queueDisableStep (s : RuntimeState) : RuntimeState :=
  { s with
      queueEnabled := false
      trace := s.trace ++ [TeardownStep.queueDisable] }

/-- The `rosnode_->shutdown()` call.  Dereferencing `rosnode_` is only valid
while it points to a live node handle; on a dangling or never-assigned
pointer the model yields `none`, the marker for an invalid memory access. -/
def nodeShutdownStep (s : RuntimeState) : Option RuntimeState :=
  if s.nodeAllocated then
    some { s with
             nodeOk := false
             trace := s.trace ++ [TeardownStep.nodeShutdown] }
  else none

/-- The `callback_queue_thread_.join()` call: blocks until the queue thread
has exited. -/
def threadJoinStep (s : RuntimeState) : RuntimeState :=
  { s with
      threadJoined := true
      trace := s.trace ++ [TeardownStep.threadJoin] }

/-- The `delete rosnode_` statement.  Like `nodeShutdownStep`, deleting
through a dangling or never-assigned pointer yields `none`. -/
def nodeDeleteStep (s : RuntimeState) : Option RuntimeState :=
  if s.nodeAllocated then
    some { s with
             nodeAllocated := false
             trace := s.trace ++ [TeardownStep.nodeDelete] }
  else none

/-- Body of `GazeboRosFT::~GazeboRosFT`, statement by statement: disconnect
the world-update callback, clear the queue, disable the queue, shut the node
down, join the queue thread, delete the node handle.  There is no guard on
any step. -/
def destructor (s : RuntimeState) : Option RuntimeState :=
  let s1 := disconnectWorldUpdateBegin s
  let s2 := queueClearStep s1
  let s3 := queueDisableStep s2
  (nodeShutdownStep s3).bind fun s4 => nodeDeleteStep (threadJoinStep s4)

/-- The runtime resources held right after `Load` returns: the queue starts
enabled, the thread is running only if it was started, and the node handle is
live exactly when `Load` allocated it. -/
def runtimeOfLoad (ls : LoadState) : RuntimeState :=
  { updateConnectionRegistered := ls.updateConnectionRegistered
    queueContents := []
    queueEnabled := true
    nodeAllocated := ls.rosnodeAllocated
    nodeOk := ls.rosnodeAllocated
    threadJoined := false
    trace := [] }

/-- Modelled from the spec: the declaration of `ft_connect_count_` lives in
the plugin header `gazebo_ros_ft_sensor.h`, which is not under `src/`; the
specification (§5) records the original field as a plain unsynchronized
integer ("must be an atomic counter or protected by its own lock — a plain
unsynchronized integer is unsafe across the two threads (flagged as a
correctness requirement stronger than the original)").  On a plain integer,
`ft_connect_count_++` and `ft_connect_count_--` are non-atomic
read-modify-write sequences, so each callback body is split into a read
micro-step and a write micro-step that may interleave with the micro-steps of
other in-flight callbacks.  `id` identifies the callback invocation; the read
step latches the current counter into that invocation's local value, and the
write step stores the incremented/decremented local value back. -/
inductive MicroStep
  | readStep (id : Nat) (op : SubEvent)
  | writeStep (id : Nat) (op : SubEvent)
  deriving DecidableEq

/-- State of the racy counter: the shared integer plus the per-invocation
latched values (most recent latch first). -/
structure RaceState where
  count : Int
  regs : List (Nat × Int)
  deriving DecidableEq

/-- Look up the value latched by invocation `id`. -/
def lookupReg (id : Nat) : List (Nat × Int) → Option Int
  | [] => none
  | (i, v) :: rest => if i = id then some v else lookupReg id rest

/-- Execute one micro-step of a callback against the shared counter. -/
def microExec (s : RaceState) : MicroStep → RaceState
  | MicroStep.readStep id _ => { s with regs := (id, s.count) :: s.regs }
  | MicroStep.writeStep id op =>
    match lookupReg id s.regs with
    | some v => { s with count := applySubEvent v op }
    | none => s

/-- Execute a schedule of micro-steps. -/
def runMicro (s : RaceState) (steps : List MicroStep) : RaceState :=
  steps.foldl microExec s

/-- The micro-step program of one callback invocation: read the counter, then
write the updated value back. -/
def callbackProgram (id : Nat) (op : SubEvent) : List MicroStep :=
  [MicroStep.readStep id op, MicroStep.writeStep id op]

/-- The callback-invocation order of a schedule: each invocation is counted
at its read step. -/
def opsOf (steps : List MicroStep) : List SubEvent :=
  steps.filterMap fun st =>
    match st with
    | MicroStep.readStep _ op => some op
    | MicroStep.writeStep _ _ => none

/-- A concrete interleaving of four callback invocations on the plain
counter: invocation 0 (`FTConnect`) runs to completion; invocations 1
(`FTConnect`) and 2 (`FTDisconnect`) overlap, each reading the counter before
either writes; invocation 3 (`FTDisconnect`) then runs to completion. -/
def raceSchedule : List MicroStep :=
  [MicroStep.readStep 0 SubEvent.connect,
   MicroStep.writeStep 0 SubEvent.connect,
   MicroStep.readStep 1 SubEvent.connect,
   MicroStep.readStep 2 SubEvent.disconnect,
   MicroStep.writeStep 1 SubEvent.connect,
   MicroStep.writeStep 2 SubEvent.disconnect,
   MicroStep.readStep 3 SubEvent.disconnect,
   MicroStep.writeStep 3 SubEvent.disconnect]

/-- Check that, starting from counter value `c`, every prefix of the event
list keeps the counter non-negative (equivalently: every prefix has at least
as many subscribes as unsubscribes). -/
def prefixSafeFrom (c : Int) : List SubEvent → Bool
  | [] => true
  | e :: es => decide (0 ≤ applySubEvent c e) && prefixSafeFrom (applySubEvent c e) es

/-- A fully wired runtime state: the state after a successful `Load` (node
handle live, queue enabled, thread running, tick callback registered). -/
def wiredState : RuntimeState :=
  { updateConnectionRegistered := true
    queueContents := []
    queueEnabled := true
    nodeAllocated := true
    nodeOk := true
    threadJoined := false
    trace := [] }

/-- The runtime state the destructor leaves behind when run on
`wiredState`. -/
def tornState : RuntimeState :=
  { updateConnectionRegistered := false
    queueContents := []
    queueEnabled := false
    nodeAllocated := false
    nodeOk := false
    threadJoined := true
    trace := [TeardownStep.disconnectWorldUpdate, TeardownStep.queueClear,
              TeardownStep.queueDisable, TeardownStep.nodeShutdown,
              TeardownStep.threadJoin, TeardownStep.nodeDelete] }

/-- A zero vector, for concrete witness states. -/
def zeroVec : Vector3 := ⟨0, 0, 0⟩

/-- An empty outgoing message, for concrete witness states. -/
def emptyMsg : WrenchMsg :=
  { frame_id := ""
    stamp_sec := 0
    stamp_nsec := 0
    force := zeroVec
    torque := zeroVec }

/-- A concrete plugin state: 10 Hz rate limit, one subscriber, last sample at
time 0. -/
def egState : FTState :=
  { ft_connect_count_ := 1
    update_rate_ := 10
    last_time_ := ⟨0, 0⟩
    frame_name_ := "link_child"
    wrench_msg_ := emptyMsg
    published := [] }

/-- A concrete joint wrench with distinct components. -/
def egWrench : JointWrench :=
  { body1Force := ⟨-1, -2, -3⟩
    body1Torque := ⟨-4, -5, -6⟩
    body2Force := ⟨1, 2, 3⟩
    body2Torque := ⟨4, 5, 6⟩ }

theorem Time.sub_double (a b : Time) : (Time.sub a b).double = a.double - b.double := by
  unfold Time.sub Time.double
  push_cast
  ring

theorem rateGateDenies_iff (s : FTState) (cur : Time) :
    rateGateDenies s cur = true ↔
      0 < s.update_rate_ ∧
        cur.double - s.last_time_.double < 1 / s.update_rate_ := by
  unfold rateGateDenies
  rw [Time.sub_double]
  simp

theorem rateGateDenies_eq_false_iff (s : FTState) (cur : Time) :
    rateGateDenies s cur = false ↔
      s.update_rate_ ≤ 0 ∨
        1 / s.update_rate_ ≤ cur.double - s.last_time_.double := by
  rw [← Bool.not_eq_true, rateGateDenies_iff]
  constructor
  · intro h
    by_cases h0 : 0 < s.update_rate_
    · right
      by_contra hc
      exact h ⟨h0, not_le.mp hc⟩
    · left
      exact not_lt.mp h0
  · rintro (h | h) ⟨h1, h2⟩
    · exact absurd h1 (not_lt.mpr h)
    · exact absurd h2 (not_lt.mpr h)

theorem updateChild_update_rate (s : FTState) (cur : Time) (w : JointWrench) :
    (UpdateChild s cur w).update_rate_ = s.update_rate_ := by
  unfold UpdateChild
  by_cases h1 : rateGateDenies s cur
  · simp [h1]
  · by_cases h2 : s.ft_connect_count_ = 0 <;> simp [h1, h2]

theorem gate_allows_elapsed (s : FTState) (cur : Time) (hf : 0 < s.update_rate_)
    (hg : rateGateDenies s cur = false) :
    s.last_time_.double + 1 / s.update_rate_ ≤ cur.double := by
  unfold rateGateDenies at hg
  rw [Bool.and_eq_false_iff] at hg
  rcases hg with hg | hg
  · rw [decide_eq_false_iff_not] at hg
    exact absurd hf hg
  · rw [decide_eq_false_iff_not, not_lt, Time.sub_double] at hg
    linarith

theorem updateChild_publishes (s : FTState) (cur : Time) (w : JointWrench)
    (h1 : rateGateDenies s cur = false) (h2 : s.ft_connect_count_ ≠ 0) :
    UpdateChild s cur w =
      { s with
          wrench_msg_ := sampledMsg s cur w
          published := s.published ++ [sampledMsg s cur w]
          last_time_ := cur } := by
  unfold UpdateChild
  simp [h1, h2]

/-- C1: the rate-limit gate of `UpdateChild` behaves exactly as the
RateLimiter contract of the specification — the tick is allowed iff the
configured frequency is ≤ 0, or the time elapsed since the last sample is at
least `1 / configuredFrequencyHz`; and whenever the gate denies, the tick
leaves the whole plugin state unchanged. -/
theorem updateChild_rate_gate_matches_contract (s : FTState) (cur : Time) (w : JointWrench) :
    (!rateGateDenies s cur) =
        shouldSample cur.double s.update_rate_ s.last_time_.double ∧
      (rateGateDenies s cur = true → UpdateChild s cur w = s) := by
  constructor
  · unfold rateGateDenies shouldSample
    rw [Time.sub_double]
    rcases le_or_lt s.update_rate_ 0 with hle | hlt
    · rw [decide_eq_false (not_lt.mpr hle), if_pos hle]
      rfl
    · by_cases hd : cur.double - s.last_time_.double < 1 / s.update_rate_
      · rw [decide_eq_true hlt, decide_eq_true hd, if_neg (not_le.mpr hlt),
          decide_eq_false (not_le.mpr hd)]
        rfl
      · rw [decide_eq_true hlt, decide_eq_false hd, if_neg (not_le.mpr hlt),
          decide_eq_true (not_lt.mp hd)]
        rfl
  · intro h
    unfold UpdateChild
    simp [h]

theorem updateChild_rate_gate_matches_contract_witness :
    rateGateDenies egState ⟨0, 0⟩ = true ∧ UpdateChild egState ⟨0, 0⟩ egWrench = egState := by
  have hg : rateGateDenies egState ⟨0, 0⟩ = true :=
    (rateGateDenies_iff egState ⟨0, 0⟩).mpr (by norm_num [egState, Time.double])
  exact ⟨hg, (updateChild_rate_gate_matches_contract egState ⟨0, 0⟩ egWrench).2 hg⟩

/-- C2: when the rate gate allows the tick but the subscriber count is zero,
`UpdateChild` returns with no side effect at all — the state (in particular
`last_time_`, `wrench_msg_` and the publish trace) is unchanged — and had a
subscriber been present at that same tick, a publish would have happened
immediately (so a subscriber appearing after a long idle period is served on
the very next eligible tick). -/
theorem updateChild_zero_subscribers_no_side_effects (s : FTState) (cur : Time)
    (w : JointWrench) (hgate : rateGateDenies s cur = false)
    (hcnt : s.ft_connect_count_ = 0) :
    UpdateChild s cur w = s ∧
      (UpdateChild { s with ft_connect_count_ := 1 } cur w).published =
        s.published ++ [sampledMsg s cur w] := by
  constructor
  · unfold UpdateChild
    simp [hgate, hcnt]
  · have h1 : rateGateDenies { s with ft_connect_count_ := 1 } cur = false := hgate
    have h2 : ({ s with ft_connect_count_ := 1 } : FTState).ft_connect_count_ ≠ 0 := by
      simp
    rw [updateChild_publishes _ _ _ h1 h2]
    simp [sampledMsg]

theorem updateChild_zero_subscribers_no_side_effects_witness :
    UpdateChild { egState with ft_connect_count_ := 0 } ⟨1, 0⟩ egWrench =
        { egState with ft_connect_count_ := 0 } ∧
      (UpdateChild { { egState with ft_connect_count_ := 0 } with
          ft_connect_count_ := 1 } ⟨1, 0⟩ egWrench).published =
        ({ egState with ft_connect_count_ := 0 } : FTState).published ++
          [sampledMsg { egState with ft_connect_count_ := 0 } ⟨1, 0⟩ egWrench] :=
  updateChild_zero_subscribers_no_side_effects
    { egState with ft_connect_count_ := 0 } ⟨1, 0⟩ egWrench
    ((rateGateDenies_eq_false_iff _ _).mpr (by norm_num [egState, Time.double]))
    (by simp [egState])

/-- C5: every sample that is taken copies the joint wrench into the outgoing
message component for component — `wrench.force` is exactly `body2Force` and
`wrench.torque` is exactly `body2Torque`, with no conversion — and that very
message is the one published. -/
theorem updateChild_wrench_passthrough (s : FTState) (cur : Time) (w : JointWrench)
    (hgate : rateGateDenies s cur = false) (hcnt : s.ft_connect_count_ ≠ 0) :
    (UpdateChild s cur w).wrench_msg_.force.x = w.body2Force.x ∧
      (UpdateChild s cur w).wrench_msg_.force.y = w.body2Force.y ∧
      (UpdateChild s cur w).wrench_msg_.force.z = w.body2Force.z ∧
      (UpdateChild s cur w).wrench_msg_.torque.x = w.body2Torque.x ∧
      (UpdateChild s cur w).wrench_msg_.torque.y = w.body2Torque.y ∧
      (UpdateChild s cur w).wrench_msg_.torque.z = w.body2Torque.z ∧
      (UpdateChild s cur w).published = s.published ++ [(UpdateChild s cur w).wrench_msg_] := by
  rw [updateChild_publishes s cur w hgate hcnt]
  unfold sampledMsg
  simp

theorem updateChild_wrench_passthrough_witness :
    (UpdateChild egState ⟨1, 0⟩ egWrench).wrench_msg_.force.x = egWrench.body2Force.x ∧
      (UpdateChild egState ⟨1, 0⟩ egWrench).wrench_msg_.force.y = egWrench.body2Force.y ∧
      (UpdateChild egState ⟨1, 0⟩ egWrench).wrench_msg_.force.z = egWrench.body2Force.z ∧
      (UpdateChild egState ⟨1, 0⟩ egWrench).wrench_msg_.torque.x = egWrench.body2Torque.x ∧
      (UpdateChild egState ⟨1, 0⟩ egWrench).wrench_msg_.torque.y = egWrench.body2Torque.y ∧
      (UpdateChild egState ⟨1, 0⟩ egWrench).wrench_msg_.torque.z = egWrench.body2Torque.z ∧
      (UpdateChild egState ⟨1, 0⟩ egWrench).published =
        egState.published ++ [(UpdateChild egState ⟨1, 0⟩ egWrench).wrench_msg_] :=
  updateChild_wrench_passthrough egState ⟨1, 0⟩ egWrench
    ((rateGateDenies_eq_false_iff _ _).mpr (by norm_num [egState, Time.double]))
    (by simp [egState])

theorem runSubEvents_count (es : List SubEvent) :
    ∀ s : FTState, (runSubEvents s es).ft_connect_count_ =
      s.ft_connect_count_ + (connectCount es : Int) - (disconnectCount es : Int) := by
  induction es with
  | nil =>
    intro s
    simp [runSubEvents, connectCount, disconnectCount]
  | cons e es ih =>
    intro s
    cases e with
    | connect =>
      have step : runSubEvents s (SubEvent.connect :: es) = runSubEvents (FTConnect s) es := rfl
      rw [step, ih (FTConnect s)]
      simp only [FTConnect, connectCount, disconnectCount]
      push_cast
      ring
    | disconnect =>
      have step : runSubEvents s (SubEvent.disconnect :: es) =
          runSubEvents (FTDisconnect s) es := rfl
      rw [step, ih (FTDisconnect s)]
      simp only [FTDisconnect, connectCount, disconnectCount]
      push_cast
      ring

/-- C3: starting from the constructor's count of 0, any interleaving of
`FTConnect` / `FTDisconnect` callbacks in which every prefix has at least as
many subscribes as unsubscribes leaves `ft_connect_count_` equal to
(number of subscribes) − (number of unsubscribes), and the count is
non-negative after every prefix. -/
theorem subscriber_count_interleaving (s : FTState) (es : List SubEvent)
    (h0 : s.ft_connect_count_ = 0)
    (hpre : ∀ n, n ≤ es.length →
      (disconnectCount (es.take n) : Int) ≤ (connectCount (es.take n) : Int)) :
    (runSubEvents s es).ft_connect_count_ =
        (connectCount es : Int) - (disconnectCount es : Int) ∧
      ∀ n, 0 ≤ (runSubEvents s (es.take n)).ft_connect_count_ := by
  constructor
  · rw [runSubEvents_count es s, h0]
    ring
  · intro n
    rcases le_or_lt n es.length with hn | hn
    · have h := hpre n hn
      rw [runSubEvents_count (es.take n) s, h0]
      omega
    · have h := hpre es.length le_rfl
      rw [List.take_length] at h
      rw [List.take_of_length_le (le_of_lt hn), runSubEvents_count es s, h0]
      omega

theorem subscriber_count_interleaving_witness :
    (runSubEvents { egState with ft_connect_count_ := 0 }
          [SubEvent.connect, SubEvent.connect, SubEvent.disconnect]).ft_connect_count_ =
        (connectCount [SubEvent.connect, SubEvent.connect, SubEvent.disconnect] : Int) -
          (disconnectCount [SubEvent.connect, SubEvent.connect, SubEvent.disconnect] : Int) ∧
      0 ≤ (runSubEvents { egState with ft_connect_count_ := 0 }
          ([SubEvent.connect, SubEvent.connect, SubEvent.disconnect].take 2)).ft_connect_count_ :=
  ⟨(subscriber_count_interleaving { egState with ft_connect_count_ := 0 }
      [SubEvent.connect, SubEvent.connect, SubEvent.disconnect]
      (by simp [egState]) (by decide)).1,
   (subscriber_count_interleaving { egState with ft_connect_count_ := 0 }
      [SubEvent.connect, SubEvent.connect, SubEvent.disconnect]
      (by simp [egState]) (by decide)).2 2⟩

theorem runTicks_inv (a T f : ℚ) (hf : 0 < f) (n0 : ℕ)
    (ticks : List (Time × JointWrench)) :
    ∀ s : FTState, s.update_rate_ = f →
      (∀ tw ∈ ticks, a ≤ tw.1.double ∧ tw.1.double ≤ a + T) →
      (s.published.length = n0 ∨
        (n0 < s.published.length ∧
          a + ((s.published.length : ℚ) - n0 - 1) / f ≤ s.last_time_.double ∧
          s.last_time_.double ≤ a + T)) →
      ((runTicks s ticks).published.length = n0 ∨
        (n0 < (runTicks s ticks).published.length ∧
          a + (((runTicks s ticks).published.length : ℚ) - n0 - 1) / f ≤
            (runTicks s ticks).last_time_.double ∧
          (runTicks s ticks).last_time_.double ≤ a + T)) := by
  induction ticks with
  | nil =>
    intro s _ _ hinv
    exact hinv
  | cons tw ticks ih =>
    intro s hrate hwin hinv
    have hstep : runTicks s (tw :: ticks) = runTicks (UpdateChild s tw.1 tw.2) ticks := rfl
    rw [hstep]
    have hwin' : ∀ t ∈ ticks, a ≤ t.1.double ∧ t.1.double ≤ a + T := by
      intro t ht
      exact hwin t (List.mem_cons_of_mem tw ht)
    have hcur := hwin tw (List.mem_cons_self tw ticks)
    have hrate' : (UpdateChild s tw.1 tw.2).update_rate_ = f := by
      rw [updateChild_update_rate]
      exact hrate
    refine ih (UpdateChild s tw.1 tw.2) hrate' hwin' ?_
    by_cases h1 : rateGateDenies s tw.1
    · have heq : UpdateChild s tw.1 tw.2 = s := by
        unfold UpdateChild
        simp [h1]
      rw [heq]
      exact hinv
    · by_cases h2 : s.ft_connect_count_ = 0
      · have heq : UpdateChild s tw.1 tw.2 = s := by
          unfold UpdateChild
          simp [h1, h2]
        rw [heq]
        exact hinv
      · rw [updateChild_publishes s tw.1 tw.2 (Bool.not_eq_true _ ▸ h1) h2]
        have hlen : (({ s with
            wrench_msg_ := sampledMsg s tw.1 tw.2
            published := s.published ++ [sampledMsg s tw.1 tw.2]
            last_time_ := tw.1 } : FTState)).published.length =
            s.published.length + 1 := by
          simp
        have helapsed : s.last_time_.double + 1 / s.update_rate_ ≤ tw.1.double :=
          gate_allows_elapsed s tw.1 (hrate ▸ hf) (Bool.not_eq_true _ ▸ h1)
        rw [hrate] at helapsed
        right
        rw [hlen]
        rcases hinv with hz | ⟨hlt, hlow, hhigh⟩
        · refine ⟨by omega, ?_, hcur.2⟩
          rw [hz]
          push_cast
          have : a + ((n0 : ℚ) + 1 - n0 - 1) / f = a := by
            field_simp
          rw [this]
          exact hcur.1
        · refine ⟨by omega, ?_, hcur.2⟩
          have key : a + ((s.published.length : ℚ) - n0 - 1) / f + 1 / f ≤ tw.1.double := by
            linarith
          have rearrange : a + ((s.published.length : ℚ) - n0 - 1) / f + 1 / f =
              a + (((s.published.length : ℚ) + 1) - n0 - 1) / f := by
            field_simp
            ring
          push_cast
          linarith [rearrange ▸ key]

/-- C4: with a configured frequency `f > 0` and at least one subscriber, any
sequence of ticks whose times all lie in a window `[a, a + T]` produces at
most `⌊T * f⌋ + 1` publishes. -/
theorem sample_count_window_bound (s0 : FTState) (ticks : List (Time × JointWrench))
    (a T : ℚ) (hf : 0 < s0.update_rate_) (hsub : s0.ft_connect_count_ ≠ 0)
    (hT : 0 ≤ T)
    (hwin : ∀ tw ∈ ticks, a ≤ tw.1.double ∧ tw.1.double ≤ a + T) :
    (runTicks s0 ticks).published.length ≤
      s0.published.length + ((⌊T * s0.update_rate_⌋).toNat + 1) := by
  have hinv := runTicks_inv a T s0.update_rate_ hf s0.published.length ticks s0 rfl hwin
    (Or.inl rfl)
  rcases hinv with h | ⟨hlt, hlow, hhigh⟩
  · omega
  · have h1 : (((runTicks s0 ticks).published.length : ℚ) - s0.published.length - 1) /
        s0.update_rate_ ≤ T := by
      linarith
    have h2 : (((runTicks s0 ticks).published.length : ℚ) - s0.published.length - 1) ≤
        T * s0.update_rate_ := by
      rw [div_le_iff₀ hf] at h1
      linarith
    have h3 : (((runTicks s0 ticks).published.length : ℤ) - s0.published.length - 1) ≤
        ⌊T * s0.update_rate_⌋ := by
      rw [Int.le_floor]
      push_cast
      linarith
    omega

theorem sample_count_window_bound_witness :
    (runTicks egState [(⟨1, 0⟩, egWrench), (⟨2, 0⟩, egWrench)]).published.length ≤
      egState.published.length + ((⌊(2 : ℚ) * egState.update_rate_⌋).toNat + 1) :=
  sample_count_window_bound egState [(⟨1, 0⟩, egWrench), (⟨2, 0⟩, egWrench)] 0 2
    (by norm_num [egState]) (by simp [egState]) (by norm_num)
    (by
      intro tw htw
      simp only [List.mem_cons, List.not_mem_nil, or_false] at htw
      rcases htw with rfl | rfl <;> constructor <;> norm_num [Time.double])

theorem load_error_no_wiring (getJoint : String → Option JointInfo) (rosReady : Bool)
    (tfParam : Option String) (cfg : SdfConfig)
    (h : (Load getJoint rosReady tfParam cfg).loadError.isSome = true) :
    (Load getJoint rosReady tfParam cfg).rosnodeAllocated = false ∧
      (Load getJoint rosReady tfParam cfg).publisherAdvertised = false ∧
      (Load getJoint rosReady tfParam cfg).queueThreadStarted = false ∧
      (Load getJoint rosReady tfParam cfg).updateConnectionRegistered = false := by
  rcases hjn : cfg.jointName with _ | jn
  · simp [Load, hjn]
  · rcases hj : getJoint jn with _ | ji
    · simp [Load, hjn, hj]
    · rcases htn : cfg.topicName with _ | tn
      · simp [Load, hjn, hj, htn]
      · cases rosReady with
        | false => simp [Load, hjn, hj, htn]
        | true => simp [Load, hjn, hj, htn] at h

theorem load_fail_iff (getJoint : String → Option JointInfo) (rosReady : Bool)
    (tfParam : Option String) (cfg : SdfConfig) :
    (Load getJoint rosReady tfParam cfg).loadError.isSome = true ↔
      (cfg.jointName = none ∨
        (∃ jn, cfg.jointName = some jn ∧ getJoint jn = none) ∨
        cfg.topicName = none ∨ rosReady = false) := by
  rcases hjn : cfg.jointName with _ | jn
  · simp [Load, hjn]
  · rcases hj : getJoint jn with _ | ji
    · simp [Load, hjn, hj]
    · rcases htn : cfg.topicName with _ | tn
      · simp [Load, hjn, hj, htn]
      · cases rosReady with
        | false => simp [Load, hjn, hj, htn]
        | true => simp [Load, hjn, hj, htn]

/-- C6: whenever any of the four startup validations fails — `jointName`
absent, the joint not resolvable in the model, `topicName` absent, or ROS not
initialized — `Load` takes the fatal early return and performs none of the
subsequent wiring: no node-handle allocation, no publisher advertisement, no
queue-thread start, no world-update-callback registration. -/
theorem load_validation_failure_no_wiring (getJoint : String → Option JointInfo)
    (rosReady : Bool) (tfParam : Option String) (cfg : SdfConfig)
    (hfail : cfg.jointName = none ∨
      (∃ jn, cfg.jointName = some jn ∧ getJoint jn = none) ∨
      cfg.topicName = none ∨ rosReady = false) :
    (Load getJoint rosReady tfParam cfg).loadError.isSome = true ∧
      (Load getJoint rosReady tfParam cfg).rosnodeAllocated = false ∧
      (Load getJoint rosReady tfParam cfg).publisherAdvertised = false ∧
      (Load getJoint rosReady tfParam cfg).queueThreadStarted = false ∧
      (Load getJoint rosReady tfParam cfg).updateConnectionRegistered = false := by
  have herr : (Load getJoint rosReady tfParam cfg).loadError.isSome = true :=
    (load_fail_iff getJoint rosReady tfParam cfg).mpr hfail
  exact ⟨herr, load_error_no_wiring getJoint rosReady tfParam cfg herr⟩

theorem load_validation_failure_no_wiring_witness :
    (Load (fun _ => none) false none ⟨none, none, none, none⟩).loadError.isSome = true ∧
      (Load (fun _ => none) false none ⟨none, none, none, none⟩).rosnodeAllocated = false ∧
      (Load (fun _ => none) false none ⟨none, none, none, none⟩).publisherAdvertised = false ∧
      (Load (fun _ => none) false none ⟨none, none, none, none⟩).queueThreadStarted = false ∧
      (Load (fun _ => none) false none
          ⟨none, none, none, none⟩).updateConnectionRegistered = false :=
  load_validation_failure_no_wiring (fun _ => none) false none ⟨none, none, none, none⟩
    (Or.inl rfl)

theorem destructor_none_of_not_allocated (s : RuntimeState) (h : s.nodeAllocated = false) :
    destructor s = none := by
  unfold destructor nodeShutdownStep disconnectWorldUpdateBegin queueClearStep queueDisableStep
  simp [h]

/-- C7: the destructor performs its teardown steps in the strict source
order on every shutdown of an instance holding a live node handle: deregister
the world-update callback, clear the queue, disable the queue, shut the node
down, join the queue thread, delete the node handle. -/
theorem destructor_teardown_order (s : RuntimeState) (h : s.nodeAllocated = true) :
    Option.map RuntimeState.trace (destructor s) =
      some (s.trace ++
        [TeardownStep.disconnectWorldUpdate, TeardownStep.queueClear,
         TeardownStep.queueDisable, TeardownStep.nodeShutdown,
         TeardownStep.threadJoin, TeardownStep.nodeDelete]) := by
  unfold destructor disconnectWorldUpdateBegin queueClearStep queueDisableStep
    nodeShutdownStep threadJoinStep nodeDeleteStep
  simp [h]

theorem destructor_teardown_order_witness :
    Option.map RuntimeState.trace (destructor wiredState) =
      some (wiredState.trace ++
        [TeardownStep.disconnectWorldUpdate, TeardownStep.queueClear,
         TeardownStep.queueDisable, TeardownStep.nodeShutdown,
         TeardownStep.threadJoin, TeardownStep.nodeDelete]) :=
  destructor_teardown_order wiredState rfl

/-- C8 counterexample: shutdown is not idempotent.  On the fully wired state
the destructor runs once and yields `tornState`; invoking it a second time on
`tornState` dereferences the already-freed node handle (`rosnode_->shutdown()`
and `delete rosnode_` on a dangling pointer), which the model records as
`none` — not a no-op returning the first shutdown's state. -/
theorem destructor_second_call_not_noop :
    destructor wiredState = some tornState ∧ destructor tornState = none := by
  constructor
  · rfl
  · rfl

/-- C8 (amended): one run of the destructor on any state holding a live node
handle leaves the queue thread joined and every owned resource released
(callback deregistered, queue disabled and empty, node shut down and freed);
but the destructor is not idempotent: running it again on the resulting state
accesses the freed node handle, modelled as `none`. -/
theorem destructor_releases_all_second_call_invalid (s s2 : RuntimeState)
    (h : destructor s = some s2) :
    s2.threadJoined = true ∧ s2.nodeAllocated = false ∧ s2.nodeOk = false ∧
      s2.updateConnectionRegistered = false ∧ s2.queueEnabled = false ∧
      s2.queueContents = [] ∧ destructor s2 = none := by
  by_cases hn : s.nodeAllocated
  · unfold destructor disconnectWorldUpdateBegin queueClearStep queueDisableStep
      nodeShutdownStep threadJoinStep nodeDeleteStep at h
    simp [hn] at h
    subst h
    exact ⟨rfl, rfl, rfl, rfl, rfl, rfl, destructor_none_of_not_allocated _ rfl⟩
  · rw [destructor_none_of_not_allocated s (Bool.not_eq_true _ ▸ hn)] at h
    exact absurd h (by simp)

theorem destructor_releases_all_second_call_invalid_witness :
    tornState.threadJoined = true ∧ tornState.nodeAllocated = false ∧
      tornState.nodeOk = false ∧ tornState.updateConnectionRegistered = false ∧
      tornState.queueEnabled = false ∧ tornState.queueContents = [] ∧
      destructor tornState = none :=
  destructor_releases_all_second_call_invalid wiredState tornState rfl

/-- C10: the destructor has no guard on whether `Load` completed: after a
`Load` that took a fatal early return, the first three teardown statements
still execute (callback disconnect, queue clear, queue disable, in order),
and teardown then dereferences the node handle that was never acquired —
`rosnode_->shutdown()` through an unassigned pointer, recorded as `none`. -/
theorem destructor_unguarded_after_failed_load (getJoint : String → Option JointInfo)
    (rosReady : Bool) (tfParam : Option String) (cfg : SdfConfig)
    (hfail : (Load getJoint rosReady tfParam cfg).loadError.isSome = true) :
    (queueDisableStep (queueClearStep (disconnectWorldUpdateBegin
        (runtimeOfLoad (Load getJoint rosReady tfParam cfg))))).trace =
        [TeardownStep.disconnectWorldUpdate, TeardownStep.queueClear,
         TeardownStep.queueDisable] ∧
      (runtimeOfLoad (Load getJoint rosReady tfParam cfg)).nodeAllocated = false ∧
      destructor (runtimeOfLoad (Load getJoint rosReady tfParam cfg)) = none := by
  have hw := load_error_no_wiring getJoint rosReady tfParam cfg hfail
  have hna : (runtimeOfLoad (Load getJoint rosReady tfParam cfg)).nodeAllocated = false := by
    unfold runtimeOfLoad
    exact hw.1
  refine ⟨?_, hna, destructor_none_of_not_allocated _ hna⟩
  unfold disconnectWorldUpdateBegin queueClearStep queueDisableStep runtimeOfLoad
  simp

theorem destructor_unguarded_after_failed_load_witness :
    (queueDisableStep (queueClearStep (disconnectWorldUpdateBegin
        (runtimeOfLoad (Load (fun _ => none) false none ⟨none, none, none, none⟩))))).trace =
        [TeardownStep.disconnectWorldUpdate, TeardownStep.queueClear,
         TeardownStep.queueDisable] ∧
      (runtimeOfLoad (Load (fun _ => none) false none
          ⟨none, none, none, none⟩)).nodeAllocated = false ∧
      destructor (runtimeOfLoad (Load (fun _ => none) false none
          ⟨none, none, none, none⟩)) = none :=
  destructor_unguarded_after_failed_load (fun _ => none) false none
    ⟨none, none, none, none⟩ rfl

/-- C9: the subscriber counter is not an atomic or lock-protected integer,
and the claimed race-freedom fails.  `raceSchedule` is a legitimate
interleaving of four callback invocations (each invocation's read precedes
its own write, and the schedule is exactly the merge of the four two-step
callback programs): two `FTConnect` and two `FTDisconnect`, in an invocation
order whose every prefix has at least as many subscribes as unsubscribes.
Executed atomically — as `FTConnect` / `FTDisconnect` on the plugin state —
the same invocation sequence ends at count 0; executed at the plain-integer
read/modify/write granularity, the schedule loses an increment and drives the
counter to −1, a negative value reached purely through the race. -/
theorem ft_connect_count_race_drives_counter_negative :
    List.Sublist (callbackProgram 0 SubEvent.connect) raceSchedule ∧
      List.Sublist (callbackProgram 1 SubEvent.connect) raceSchedule ∧
      List.Sublist (callbackProgram 2 SubEvent.disconnect) raceSchedule ∧
      List.Sublist (callbackProgram 3 SubEvent.disconnect) raceSchedule ∧
      raceSchedule.Perm (callbackProgram 0 SubEvent.connect ++
        callbackProgram 1 SubEvent.connect ++ callbackProgram 2 SubEvent.disconnect ++
        callbackProgram 3 SubEvent.disconnect) ∧
      opsOf raceSchedule =
        [SubEvent.connect, SubEvent.connect, SubEvent.disconnect, SubEvent.disconnect] ∧
      prefixSafeFrom 0 (opsOf raceSchedule) = true ∧
      (runSubEvents { egState with ft_connect_count_ := 0 }
          (opsOf raceSchedule)).ft_connect_count_ = 0 ∧
      (runMicro ⟨0, []⟩ raceSchedule).count = -1 := by
  refine ⟨?_, ?_, ?_, ?_, ?_, ?_, ?_, ?_, ?_⟩ <;> decide

end GazeboRosFT
